import Mathlib

/-!
Shallow embedding of the task-tracker CLI (src/src/main.rs).

The program is a single-pass command dispatcher over a flat task collection:
it reads the whole collection from `~/.tasks.json`, applies one command in
memory, and writes the whole collection back.  The embedding below mirrors
`main.rs` arm by arm; external-crate values are modelled abstractly:
`Ulid` by its 128-bit numeric value, `DateTime<Utc>` by an abstract instant
(a natural number), and a serde_json document by an inductive `Json` value
whose number node stands for the injective textual encoding the crates use.
-/

namespace TaskTracker

/-- Commands enum, main.rs lines 6-12. -/
inductive Commands
  | Add
  | Update
  | Delete
  | Mark
  | List
deriving DecidableEq

/-- CliError enum, main.rs lines 14-18. -/
inductive CliError
  | InvalidCommand
  | InvalidArgs
deriving DecidableEq

/-- FromStr for Commands, main.rs lines 20-33. -/
def Commands.fromStr (s : String) : Except CliError Commands :=
  match s with
  | "add" => .ok .Add
  | "update" => .ok .Update
  | "delete" => .ok .Delete
  | "mark" => .ok .Mark
  | "list" => .ok .List
  | _ => .error .InvalidCommand

/-- Status enum, main.rs lines 35-41; carries serde rename_all = "kebab-case". -/
inductive Status
  | InProgress
  | Done
  | ToDo
deriving DecidableEq

/-- FromStr for Status, main.rs lines 43-54 (CLI keyword parsing). -/
def Status.fromStr (s : String) : Except CliError Status :=
  match s with
  | "in-progress" => .ok .InProgress
  | "done" => .ok .Done
  | "todo" => .ok .ToDo
  | _ => .error .InvalidArgs

/-- Display for Status, main.rs lines 56-64. -/
def Status.display : Status → String
  | .Done => "done"
  | .ToDo => "todo"
  | .InProgress => "in-progress"

/-- Serde-serialized variant keyword under rename_all = "kebab-case"
(main.rs line 36): the camel-case variant names InProgress, Done, ToDo
render as "in-progress", "done", and "to-do". -/
def Status.serdeName : Status → String
  | .InProgress => "in-progress"
  | .Done => "done"
  | .ToDo => "to-do"

/-- Serde deserialization of a status keyword: exact inverse of the
kebab-case rename used by the derived Deserialize impl. -/
def Status.fromSerdeName (s : String) : Option Status :=
  match s with
  | "in-progress" => some .InProgress
  | "done" => some .Done
  | "to-do" => some .ToDo
  | _ => none

/-- Ulid (external crate `ulid`): a 128-bit identifier, modelled by its
numeric value.  Only equality of ids matters to the program logic. -/
structure Ulid where
  val : Nat
deriving DecidableEq

/-- The Crockford base32 digit alphabet used by ulid strings. -/
def crockfordDigits : List Char := "0123456789ABCDEFGHJKMNPQRSTVWXYZ".toList

/-- Value of one Crockford base32 digit, none for a character outside the
alphabet. -/
def crockfordVal (c : Char) : Option Nat :=
  crockfordDigits.findIdx? (fun d => d = c)

/-- Model of Ulid::from_string: a valid ulid string is 26 characters over the
Crockford base32 alphabet; decoding folds the digit values. -/
def Ulid.fromString (s : String) : Option Ulid :=
  if s.length = 26 then
    (s.toList.foldl
      (fun acc c => do
        let a ← acc
        let v ← crockfordVal c
        pure (a * 32 + v))
      (some 0)).map Ulid.mk
  else none

/-- Digit extraction loop for the canonical ulid string rendering. -/
def ulidCharsAux : Nat → Nat → List Char → List Char
  | 0, _, acc => acc
  | k + 1, n, acc => ulidCharsAux k (n / 32) (crockfordDigits.getD (n % 32) '0' :: acc)

/-- Model of Ulid's Display: the canonical 26-character Crockford base32
rendering of the numeric value. -/
def Ulid.display (u : Ulid) : String := String.mk (ulidCharsAux 26 u.val [])

/-- Task struct, main.rs lines 66-73.  DateTime<Utc> is modelled as an
abstract instant (a natural number). -/
structure Task where
  id : Ulid
  description : String
  status : Status
  created_at : Nat
  updated_at : Nat
deriving DecidableEq

/-- Minimal model of a serde_json value.  Ids and timestamps are serialized
by injective encodings (canonical ulid string, RFC 3339 timestamp); the
`num` node stands for that injective encoding of the underlying value. -/
inductive Json
  | str : String → Json
  | num : Nat → Json
  | arr : List Json → Json
  | obj : List (String × Json) → Json

/-- Field lookup in a serialized object, as the derived Deserialize does
(first occurrence of the field name). -/
def Json.lookup (fields : List (String × Json)) (k : String) : Option Json :=
  (fields.find? (fun p => p.1 == k)).map Prod.snd

/-- Derived Serialize for Task: one JSON object with the five fields in
declaration order. -/
def encodeTask (t : Task) : Json :=
  .obj [("id", .num t.id.val),
        ("description", .str t.description),
        ("status", .str t.status.serdeName),
        ("created_at", .num t.created_at),
        ("updated_at", .num t.updated_at)]

/-- Derived Deserialize for Task: read the five fields from the object,
failing if any is missing or has the wrong shape. -/
def decodeTask (j : Json) : Option Task :=
  match j with
  | .obj fs => do
      let Json.num i ← Json.lookup fs "id" | none
      let Json.str d ← Json.lookup fs "description" | none
      let Json.str sname ← Json.lookup fs "status" | none
      let st ← Status.fromSerdeName sname
      let Json.num c ← Json.lookup fs "created_at" | none
      let Json.num u ← Json.lookup fs "updated_at" | none
      pure ⟨⟨i⟩, d, st, c, u⟩
  | _ => none

/-- Deserialize for Vec of Task applied to the elements of a JSON array:
elementwise, first failure wins. -/
def decodeTaskList : List Json → Option (List Task)
  | [] => some []
  | j :: js => do
      let t ← decodeTask j
      let ts ← decodeTaskList js
      pure (t :: ts)

/-- serde_json::from_slice for Vec of Task: the document must be an array of
task objects. -/
def decodeTasks (j : Json) : Option (List Task) :=
  match j with
  | .arr js => decodeTaskList js
  | _ => none

/-- serde_json::to_vec of the collection (main.rs line 166): a JSON array of
the serialized tasks, in collection order. -/
def saveDoc (tasks : List Task) : Json := .arr (tasks.map encodeTask)

/-- Error kind carried by a failed std::fs::read; main.rs never inspects it. -/
inductive IOErrorKind
  | notFound
  | permissionDenied
  | other
deriving DecidableEq

/-- Result of the std::fs::read call on the tasks file. -/
inductive ReadResult
  | ok : Json → ReadResult
  | err : IOErrorKind → ReadResult

/-- Result of loading the collection: either the in-memory collection or a
fatal abort with the panic message. -/
inductive LoadResult
  | ok : List Task → LoadResult
  | fatal : String → LoadResult
deriving DecidableEq

/-- Load, main.rs lines 95-100: `if let Ok(tasks) = std::fs::read(..)` treats
every read failure alike (the error kind is never inspected) and yields an
empty collection; content that does not parse panics via expect. -/
def load (r : ReadResult) : LoadResult :=
  match r with
  | .ok doc =>
      match decodeTasks doc with
      | some ts => .ok ts
      | none => .fatal "invalid json format"
  | .err _ => .ok []

/-- Add arm, main.rs lines 103-115: push a new ToDo task at the end.  The two
consecutive Utc::now() calls are modelled as the single instant `now`. -/
def addTask (tasks : List Task) (newId : Ulid) (description : String) (now : Nat) :
    List Task :=
  tasks ++ [⟨newId, description, .ToDo, now, now⟩]

/-- Mark arm loop, main.rs lines 138-143: set the status of the first task
with the given id, then break. -/
def markFirst (tasks : List Task) (id : Ulid) (status : Status) : List Task :=
  match tasks with
  | [] => []
  | t :: rest =>
      if t.id = id then { t with status := status } :: rest
      else t :: markFirst rest id status

/-- Delete arm, main.rs lines 146-149: Vec::retain keeps exactly the tasks
whose id differs from the given id. -/
def deleteTasks (tasks : List Task) (id : Ulid) : List Task :=
  tasks.filter (fun t => t.id != id)

/-- Update arm loop, main.rs lines 155-160: replace the description of the
first task with the given id, then break. -/
def updateFirst (tasks : List Task) (id : Ulid) (d : String) : List Task :=
  match tasks with
  | [] => []
  | t :: rest =>
      if t.id = id then { t with description := d } :: rest
      else t :: updateFirst rest id d

/-- One printed line of the list command, main.rs line 130:
println with format string "{}. {} ({})". -/
def taskLine (t : Task) : String :=
  t.id.display ++ ". " ++ t.description ++ " (" ++ t.status.display ++ ")"

/-- Observable outcome of one program run: help text only, invalid-command
message, a fatal abort (panic message), or normal completion carrying the
printed lines and the document written back to the tasks file. -/
inductive Outcome
  | help : Outcome
  | invalidCommand : Outcome
  | fatal : String → Outcome
  | done : List String → Json → Outcome

/-- The document a run wrote to the tasks file, none when the run ended
before the final fs::write (main.rs lines 164-168). -/
def writtenDoc : Outcome → Option Json
  | .done _ w => some w
  | _ => none

/-- main(), main.rs lines 88-174.  `args` is the full argv (program name
first), `fsRead` the result of fs::read on the tasks file, `newId` the value
Ulid::new() would produce, `now` the current instant.  Out-of-bounds argv
indexing and every expect are fatal aborts; a normal run ends with the
unconditional fs::write of the (possibly mutated) collection. -/
def runMain (args : List String) (fsRead : ReadResult) (newId : Ulid) (now : Nat) :
    Outcome :=
  if args.length = 1 then .help
  else
    match args[1]? with
    | none => .fatal "index out of bounds"
    | some cmdStr =>
      match Commands.fromStr cmdStr with
      | .error _ => .invalidCommand
      | .ok cmd =>
        match load fsRead with
        | .fatal m => .fatal m
        | .ok tasks =>
          match cmd with
          | .Add =>
            match args[2]? with
            | none => .fatal "index out of bounds"
            | some description =>
                .done [] (saveDoc (addTask tasks newId description now))
          | .List =>
            match args[2]? with
            | some s =>
              match Status.fromStr s with
              | .error _ => .fatal "invalid status type"
              | .ok status =>
                  .done ((tasks.filter (fun t => t.status == status)).map taskLine)
                    (saveDoc tasks)
            | none => .done (tasks.map taskLine) (saveDoc tasks)
          | .Mark =>
            match args[2]? with
            | none => .fatal "index out of bounds"
            | some idStr =>
              match Ulid.fromString idStr with
              | none => .fatal "invalid ulid format"
              | some id =>
                match args[3]? with
                | none => .fatal "index out of bounds"
                | some stStr =>
                  match Status.fromStr stStr with
                  | .error _ => .fatal "invalid status kind"
                  | .ok status => .done [] (saveDoc (markFirst tasks id status))
          | .Delete =>
            match args[2]? with
            | none => .fatal "index out of bounds"
            | some idStr =>
              match Ulid.fromString idStr with
              | none => .fatal "invalid ulid format"
              | some id => .done [] (saveDoc (deleteTasks tasks id))
          | .Update =>
            match args[2]? with
            | none => .fatal "index out of bounds"
            | some idStr =>
              match Ulid.fromString idStr with
              | none => .fatal "invalid ulid format"
              | some id =>
                match args[3]? with
                | none => .fatal "index out of bounds"
                | some d => .done [] (saveDoc (updateFirst tasks id d))

/-! Helper lemmas shared by the claim theorems. -/

/-- Arm-shape lemma: a `list` run with a status argument dispatches through
load and the status parse to the filtered print and the unconditional save. -/
theorem runMain_list_arg_eq (p s : String) (fsRead : ReadResult) (i : Ulid) (n : Nat) :
    runMain [p, "list", s] fsRead i n =
      match load fsRead with
      | .fatal m => .fatal m
      | .ok tasks =>
        match Status.fromStr s with
        | .error _ => .fatal "invalid status type"
        | .ok status =>
            .done ((tasks.filter (fun t => t.status == status)).map taskLine)
              (saveDoc tasks) := rfl

/-- Arm-shape lemma: a `list` run without arguments prints every task and
still ends in the unconditional save of the loaded collection. -/
theorem runMain_list_eq (p : String) (fsRead : ReadResult) (i : Ulid) (n : Nat) :
    runMain [p, "list"] fsRead i n =
      match load fsRead with
      | .fatal m => .fatal m
      | .ok tasks => .done (tasks.map taskLine) (saveDoc tasks) := rfl

/-- Arm-shape lemma: an `add` run appends the new task and saves. -/
theorem runMain_add_eq (p d : String) (fsRead : ReadResult) (i : Ulid) (n : Nat) :
    runMain [p, "add", d] fsRead i n =
      match load fsRead with
      | .fatal m => .fatal m
      | .ok tasks => .done [] (saveDoc (addTask tasks i d n)) := rfl

/-- Arm-shape lemma: a `delete` run dispatches through load and the id parse
to the retain call and the unconditional save. -/
theorem runMain_delete_eq (p idStr : String) (fsRead : ReadResult) (i : Ulid) (n : Nat) :
    runMain [p, "delete", idStr] fsRead i n =
      match load fsRead with
      | .fatal m => .fatal m
      | .ok tasks =>
        match Ulid.fromString idStr with
        | none => .fatal "invalid ulid format"
        | some id => .done [] (saveDoc (deleteTasks tasks id)) := rfl

/-- markFirst walks past a block of non-matching tasks unchanged. -/
theorem markFirst_append_not_mem (pre rest : List Task) (id : Ulid) (st : Status)
    (h : ∀ u ∈ pre, u.id ≠ id) :
    markFirst (pre ++ rest) id st = pre ++ markFirst rest id st := by
  induction pre with
  | nil => rfl
  | cons u pre ih =>
      have hu : u.id ≠ id := h u (List.mem_cons_self u pre)
      simp only [List.cons_append, markFirst, if_neg hu, List.append_eq]
      rw [ih (fun v hv => h v (List.mem_cons_of_mem u hv))]

/-- updateFirst walks past a block of non-matching tasks unchanged. -/
theorem updateFirst_append_not_mem (pre rest : List Task) (id : Ulid) (d : String)
    (h : ∀ u ∈ pre, u.id ≠ id) :
    updateFirst (pre ++ rest) id d = pre ++ updateFirst rest id d := by
  induction pre with
  | nil => rfl
  | cons u pre ih =>
      have hu : u.id ≠ id := h u (List.mem_cons_self u pre)
      simp only [List.cons_append, updateFirst, if_neg hu, List.append_eq]
      rw [ih (fun v hv => h v (List.mem_cons_of_mem u hv))]

/-- markFirst never touches the updated_at column. -/
theorem markFirst_map_updated_at (tasks : List Task) (id : Ulid) (st : Status) :
    (markFirst tasks id st).map Task.updated_at = tasks.map Task.updated_at := by
  induction tasks with
  | nil => rfl
  | cons u rest ih =>
      by_cases h : u.id = id <;> simp [markFirst, h, ih]

/-- updateFirst never touches the updated_at column. -/
theorem updateFirst_map_updated_at (tasks : List Task) (id : Ulid) (d : String) :
    (updateFirst tasks id d).map Task.updated_at = tasks.map Task.updated_at := by
  induction tasks with
  | nil => rfl
  | cons u rest ih =>
      by_cases h : u.id = id <;> simp [updateFirst, h, ih]

/-- Deleting removes exactly as many tasks as match the id. -/
theorem deleteTasks_length (tasks : List Task) (id : Ulid) :
    (deleteTasks tasks id).length + tasks.countP (fun t => t.id == id) = tasks.length := by
  induction tasks with
  | nil => rfl
  | cons u rest ih =>
      by_cases h : u.id = id <;>
        simp [deleteTasks, List.filter_cons, List.countP_cons, h] at ih ⊢ <;>
        omega

/-- Deserializing a serialized task recovers it exactly. -/
theorem decodeTask_encodeTask (t : Task) : decodeTask (encodeTask t) = some t := by
  cases t with
  | mk id d st c u => cases st <;> rfl

/-- Deserializing a serialized collection recovers it elementwise. -/
theorem decodeTaskList_map_encode (ts : List Task) :
    decodeTaskList (ts.map encodeTask) = some ts := by
  induction ts with
  | nil => rfl
  | cons t ts ih => simp [decodeTaskList, decodeTask_encodeTask, ih]

/-! Claim theorems. -/

/-- Claim C1 counterexample: a successful `list` run on an existing one-task
store ends in the unconditional fs::write, so a save IS triggered after list,
contradicting the claim that list never triggers a save. -/
theorem c1_counterexample :
    writtenDoc (runMain ["task-cli", "list"]
        (ReadResult.ok (saveDoc [⟨⟨3⟩, "buy milk", Status.ToDo, 5, 5⟩])) ⟨9⟩ 7)
      = some (saveDoc [⟨⟨3⟩, "buy milk", Status.ToDo, 5, 5⟩]) := rfl

/-- Claim C1 (amended): a successful `list` invocation, with or without a
status argument, does not mutate the in-memory collection, but it does
trigger a save: the run ends in the unconditional fs::write of exactly the
loaded, unmodified collection, just like the other five commands. -/
theorem c1_list_saves_unchanged_collection
    (p s : String) (fsRead : ReadResult) (i : Ulid) (n : Nat)
    (tasks : List Task) (st : Status)
    (hload : load fsRead = LoadResult.ok tasks)
    (hst : Status.fromStr s = Except.ok st) :
    writtenDoc (runMain [p, "list"] fsRead i n) = some (saveDoc tasks) ∧
    writtenDoc (runMain [p, "list", s] fsRead i n) = some (saveDoc tasks) := by
  constructor
  · rw [runMain_list_eq, hload]
    rfl
  · rw [runMain_list_arg_eq, hload]
    simp [hst, writtenDoc]

/-- Claim C1 witness. -/
theorem c1_list_saves_unchanged_collection_witness :
    writtenDoc (runMain ["task-cli", "list"]
        (ReadResult.ok (saveDoc [⟨⟨1⟩, "a", Status.Done, 2, 2⟩])) ⟨9⟩ 7)
      = some (saveDoc [⟨⟨1⟩, "a", Status.Done, 2, 2⟩]) ∧
    writtenDoc (runMain ["task-cli", "list", "done"]
        (ReadResult.ok (saveDoc [⟨⟨1⟩, "a", Status.Done, 2, 2⟩])) ⟨9⟩ 7)
      = some (saveDoc [⟨⟨1⟩, "a", Status.Done, 2, 2⟩]) :=
  c1_list_saves_unchanged_collection "task-cli" "done"
    (ReadResult.ok (saveDoc [⟨⟨1⟩, "a", Status.Done, 2, 2⟩])) ⟨9⟩ 7
    [⟨⟨1⟩, "a", Status.Done, 2, 2⟩] Status.Done rfl rfl

/-- Claim C2: mark and update scan the collection in order and modify only
the first task whose id equals the given id, then stop: with pre all
non-matching and t the first match, the result changes exactly t, leaving
pre and post untouched, even when post contains further matches. -/
theorem c2_mark_update_first_match
    (pre post : List Task) (t : Task) (id : Ulid) (st : Status) (d : String)
    (hpre : ∀ u ∈ pre, u.id ≠ id) (ht : t.id = id) :
    markFirst (pre ++ t :: post) id st
      = pre ++ ({ t with status := st } : Task) :: post ∧
    updateFirst (pre ++ t :: post) id d
      = pre ++ ({ t with description := d } : Task) :: post := by
  constructor
  · rw [markFirst_append_not_mem pre _ id st hpre]
    simp [markFirst, ht]
  · rw [updateFirst_append_not_mem pre _ id d hpre]
    simp [updateFirst, ht]

/-- Claim C2 witness: two tasks share id 2; only the first is modified. -/
theorem c2_mark_update_first_match_witness :
    markFirst ([⟨⟨1⟩, "a", Status.ToDo, 0, 0⟩] ++ ⟨⟨2⟩, "b", Status.ToDo, 0, 0⟩
        :: [⟨⟨2⟩, "c", Status.ToDo, 0, 0⟩]) ⟨2⟩ Status.Done
      = [⟨⟨1⟩, "a", Status.ToDo, 0, 0⟩] ++ ⟨⟨2⟩, "b", Status.Done, 0, 0⟩
        :: [⟨⟨2⟩, "c", Status.ToDo, 0, 0⟩] ∧
    updateFirst ([⟨⟨1⟩, "a", Status.ToDo, 0, 0⟩] ++ ⟨⟨2⟩, "b", Status.ToDo, 0, 0⟩
        :: [⟨⟨2⟩, "c", Status.ToDo, 0, 0⟩]) ⟨2⟩ "z"
      = [⟨⟨1⟩, "a", Status.ToDo, 0, 0⟩] ++ ⟨⟨2⟩, "z", Status.ToDo, 0, 0⟩
        :: [⟨⟨2⟩, "c", Status.ToDo, 0, 0⟩] :=
  c2_mark_update_first_match [⟨⟨1⟩, "a", Status.ToDo, 0, 0⟩]
    [⟨⟨2⟩, "c", Status.ToDo, 0, 0⟩] ⟨⟨2⟩, "b", Status.ToDo, 0, 0⟩ ⟨2⟩
    Status.Done "z" (by decide) rfl

/-- Claim C3: delete removes exactly the tasks whose id equals the given id:
no survivor matches, the survivors are a sublist of the original collection
(relative order and contents preserved), exactly the matching tasks are
removed, a no-match delete leaves the collection unchanged, and the run
still ends in a save of the result. -/
theorem c3_delete_removes_all_matching
    (p idStr : String) (fsRead : ReadResult) (i : Ulid) (n : Nat)
    (tasks : List Task) (id : Ulid)
    (hload : load fsRead = LoadResult.ok tasks)
    (hid : Ulid.fromString idStr = some id) :
    (deleteTasks tasks id).all (fun t => t.id != id) = true ∧
    List.Sublist (deleteTasks tasks id) tasks ∧
    (deleteTasks tasks id).length + tasks.countP (fun t => t.id == id)
      = tasks.length ∧
    (tasks.all (fun t => t.id != id) = true → deleteTasks tasks id = tasks) ∧
    runMain [p, "delete", idStr] fsRead i n
      = Outcome.done [] (saveDoc (deleteTasks tasks id)) := by
  refine ⟨?_, ?_, deleteTasks_length tasks id, ?_, ?_⟩
  · simp only [deleteTasks, List.all_eq_true]
    intro t ht
    exact (List.mem_filter.mp ht).2
  · exact List.filter_sublist tasks
  · intro h
    exact List.filter_eq_self.mpr (List.all_eq_true.mp h)
  · rw [runMain_delete_eq, hload]
    simp [hid]

/-- Claim C3 witness: two of three tasks share the deleted id; both go. -/
theorem c3_delete_removes_all_matching_witness :
    (deleteTasks ([⟨⟨0⟩, "a", Status.ToDo, 0, 0⟩, ⟨⟨1⟩, "b", Status.Done, 0, 0⟩,
        ⟨⟨0⟩, "c", Status.ToDo, 0, 0⟩] : List Task) ⟨0⟩).all
        (fun t => t.id != (⟨0⟩ : Ulid)) = true ∧
    List.Sublist (deleteTasks ([⟨⟨0⟩, "a", Status.ToDo, 0, 0⟩,
        ⟨⟨1⟩, "b", Status.Done, 0, 0⟩, ⟨⟨0⟩, "c", Status.ToDo, 0, 0⟩] : List Task) ⟨0⟩)
      ([⟨⟨0⟩, "a", Status.ToDo, 0, 0⟩, ⟨⟨1⟩, "b", Status.Done, 0, 0⟩,
        ⟨⟨0⟩, "c", Status.ToDo, 0, 0⟩] : List Task) ∧
    (deleteTasks ([⟨⟨0⟩, "a", Status.ToDo, 0, 0⟩, ⟨⟨1⟩, "b", Status.Done, 0, 0⟩,
        ⟨⟨0⟩, "c", Status.ToDo, 0, 0⟩] : List Task) ⟨0⟩).length
      + List.countP (fun t => t.id == (⟨0⟩ : Ulid))
          ([⟨⟨0⟩, "a", Status.ToDo, 0, 0⟩, ⟨⟨1⟩, "b", Status.Done, 0, 0⟩,
            ⟨⟨0⟩, "c", Status.ToDo, 0, 0⟩] : List Task)
      = List.length ([⟨⟨0⟩, "a", Status.ToDo, 0, 0⟩, ⟨⟨1⟩, "b", Status.Done, 0, 0⟩,
          ⟨⟨0⟩, "c", Status.ToDo, 0, 0⟩] : List Task) ∧
    (List.all ([⟨⟨0⟩, "a", Status.ToDo, 0, 0⟩, ⟨⟨1⟩, "b", Status.Done, 0, 0⟩,
        ⟨⟨0⟩, "c", Status.ToDo, 0, 0⟩] : List Task)
        (fun t => t.id != (⟨0⟩ : Ulid)) = true →
      deleteTasks ([⟨⟨0⟩, "a", Status.ToDo, 0, 0⟩, ⟨⟨1⟩, "b", Status.Done, 0, 0⟩,
        ⟨⟨0⟩, "c", Status.ToDo, 0, 0⟩] : List Task) ⟨0⟩
      = ([⟨⟨0⟩, "a", Status.ToDo, 0, 0⟩, ⟨⟨1⟩, "b", Status.Done, 0, 0⟩,
          ⟨⟨0⟩, "c", Status.ToDo, 0, 0⟩] : List Task)) ∧
    runMain ["task-cli", "delete", "00000000000000000000000000"]
        (ReadResult.ok (saveDoc [⟨⟨0⟩, "a", Status.ToDo, 0, 0⟩,
          ⟨⟨1⟩, "b", Status.Done, 0, 0⟩, ⟨⟨0⟩, "c", Status.ToDo, 0, 0⟩])) ⟨7⟩ 9
      = Outcome.done [] (saveDoc (deleteTasks ([⟨⟨0⟩, "a", Status.ToDo, 0, 0⟩,
          ⟨⟨1⟩, "b", Status.Done, 0, 0⟩,
          ⟨⟨0⟩, "c", Status.ToDo, 0, 0⟩] : List Task) ⟨0⟩)) :=
  c3_delete_removes_all_matching "task-cli" "00000000000000000000000000"
    (ReadResult.ok (saveDoc [⟨⟨0⟩, "a", Status.ToDo, 0, 0⟩,
      ⟨⟨1⟩, "b", Status.Done, 0, 0⟩, ⟨⟨0⟩, "c", Status.ToDo, 0, 0⟩])) ⟨7⟩ 9
    [⟨⟨0⟩, "a", Status.ToDo, 0, 0⟩, ⟨⟨1⟩, "b", Status.Done, 0, 0⟩,
      ⟨⟨0⟩, "c", Status.ToDo, 0, 0⟩] ⟨0⟩ rfl rfl

/-- Claim C4: add appends exactly one new task at the end, with the given
description, status ToDo, and created_at and updated_at both the current
instant; every pre-existing task keeps its position, and the run ends in a
save of the extended collection. -/
theorem c4_add_appends (p d : String) (fsRead : ReadResult) (i : Ulid) (n : Nat)
    (tasks : List Task)
    (hload : load fsRead = LoadResult.ok tasks) :
    runMain [p, "add", d] fsRead i n
      = Outcome.done [] (saveDoc (tasks ++ [⟨i, d, Status.ToDo, n, n⟩])) ∧
    ((tasks ++ [⟨i, d, Status.ToDo, n, n⟩] : List Task)).take tasks.length = tasks ∧
    ((tasks ++ [⟨i, d, Status.ToDo, n, n⟩] : List Task)).length = tasks.length + 1 := by
  refine ⟨?_, List.take_left tasks _, by simp⟩
  rw [runMain_add_eq, hload]
  rfl

/-- Claim C4 witness. -/
theorem c4_add_appends_witness :
    runMain ["task-cli", "add", "buy milk"]
        (ReadResult.ok (saveDoc [⟨⟨1⟩, "a", Status.Done, 2, 3⟩])) ⟨4⟩ 6
      = Outcome.done [] (saveDoc ([⟨⟨1⟩, "a", Status.Done, 2, 3⟩]
          ++ [⟨⟨4⟩, "buy milk", Status.ToDo, 6, 6⟩])) ∧
    (([⟨⟨1⟩, "a", Status.Done, 2, 3⟩] : List Task)
        ++ ([⟨⟨4⟩, "buy milk", Status.ToDo, 6, 6⟩] : List Task)).take
        (List.length ([⟨⟨1⟩, "a", Status.Done, 2, 3⟩] : List Task))
      = [⟨⟨1⟩, "a", Status.Done, 2, 3⟩] ∧
    (([⟨⟨1⟩, "a", Status.Done, 2, 3⟩] : List Task)
        ++ ([⟨⟨4⟩, "buy milk", Status.ToDo, 6, 6⟩] : List Task)).length
      = List.length ([⟨⟨1⟩, "a", Status.Done, 2, 3⟩] : List Task) + 1 :=
  c4_add_appends "task-cli" "buy milk"
    (ReadResult.ok (saveDoc [⟨⟨1⟩, "a", Status.Done, 2, 3⟩])) ⟨4⟩ 6
    [⟨⟨1⟩, "a", Status.Done, 2, 3⟩] rfl

/-- Claim C5: serializing a collection with save and deserializing the result
with load yields the identical collection: same ids, descriptions, statuses,
and timestamps, in the same order. -/
theorem c5_save_load_round_trip (tasks : List Task) :
    load (ReadResult.ok (saveDoc tasks)) = LoadResult.ok tasks := by
  simp [load, saveDoc, decodeTasks, decodeTaskList_map_encode]

/-- Claim C6 counterexample: a read failure other than non-existence (a
permission error) is NOT fatal; the code never inspects the error kind and
returns the empty collection, contradicting the fatal-IOError claim. -/
theorem c6_counterexample :
    load (ReadResult.err IOErrorKind.permissionDenied) = LoadResult.ok [] := rfl

/-- Claim C6 (amended): load treats every read failure alike — whether the
file is missing or unreadable for any other reason, it returns the empty
collection; only content that reads successfully but does not parse is a
fatal abort with a diagnostic. -/
theorem c6_load_error_kinds (k : IOErrorKind) (good bad : Json) (tasks : List Task)
    (hgood : decodeTasks good = some tasks) (hbad : decodeTasks bad = none) :
    load (ReadResult.err k) = LoadResult.ok [] ∧
    load (ReadResult.ok good) = LoadResult.ok tasks ∧
    load (ReadResult.ok bad) = LoadResult.fatal "invalid json format" := by
  refine ⟨rfl, ?_, ?_⟩ <;> simp [load, hgood, hbad]

/-- Claim C6 witness. -/
theorem c6_load_error_kinds_witness :
    load (ReadResult.err IOErrorKind.other) = LoadResult.ok [] ∧
    load (ReadResult.ok (saveDoc [⟨⟨1⟩, "a", Status.ToDo, 0, 0⟩]))
      = LoadResult.ok [⟨⟨1⟩, "a", Status.ToDo, 0, 0⟩] ∧
    load (ReadResult.ok (Json.num 0)) = LoadResult.fatal "invalid json format" :=
  c6_load_error_kinds IOErrorKind.other (saveDoc [⟨⟨1⟩, "a", Status.ToDo, 0, 0⟩])
    (Json.num 0) [⟨⟨1⟩, "a", Status.ToDo, 0, 0⟩] rfl rfl

/-- Claim C7: running list with a status argument that is not one of the
three recognized keywords is a fatal error, and the run never reaches the
final fs::write, so the persisted file is untouched. -/
theorem c7_bad_status_fatal_no_write (p s : String) (fsRead : ReadResult) (i : Ulid)
    (n : Nat) (e : CliError) (tasks : List Task)
    (hs : Status.fromStr s = Except.error e)
    (hload : load fsRead = LoadResult.ok tasks) :
    runMain [p, "list", s] fsRead i n = Outcome.fatal "invalid status type" ∧
    writtenDoc (runMain [p, "list", s] fsRead i n) = none := by
  have h1 : runMain [p, "list", s] fsRead i n = Outcome.fatal "invalid status type" := by
    rw [runMain_list_arg_eq, hload]
    simp [hs]
  exact ⟨h1, by rw [h1]; rfl⟩

/-- Claim C7 witness. -/
theorem c7_bad_status_fatal_no_write_witness :
    runMain ["task-cli", "list", "badstatus"]
        (ReadResult.ok (saveDoc [⟨⟨1⟩, "a", Status.ToDo, 0, 0⟩])) ⟨0⟩ 0
      = Outcome.fatal "invalid status type" ∧
    writtenDoc (runMain ["task-cli", "list", "badstatus"]
        (ReadResult.ok (saveDoc [⟨⟨1⟩, "a", Status.ToDo, 0, 0⟩])) ⟨0⟩ 0) = none :=
  c7_bad_status_fatal_no_write "task-cli" "badstatus"
    (ReadResult.ok (saveDoc [⟨⟨1⟩, "a", Status.ToDo, 0, 0⟩])) ⟨0⟩ 0
    CliError.InvalidArgs [⟨⟨1⟩, "a", Status.ToDo, 0, 0⟩] rfl rfl

/-- Claim C8 counterexample: adding "buy milk" to an empty store writes one
task whose serialized status string is "to-do" (the kebab-case rename of the
variant ToDo), not "todo" as the claim states. -/
theorem c8_counterexample :
    runMain ["task-cli", "add", "buy milk"] (ReadResult.err IOErrorKind.notFound) ⟨0⟩ 0
      = Outcome.done [] (Json.arr [Json.obj
          [("id", Json.num 0), ("description", Json.str "buy milk"),
           ("status", Json.str "to-do"), ("created_at", Json.num 0),
           ("updated_at", Json.num 0)]]) ∧
    Status.serdeName Status.ToDo ≠ "todo" :=
  ⟨rfl, by decide⟩

/-- Claim C8 (amended): after add "buy milk" on an empty collection the
persisted document contains exactly one task whose description is
"buy milk" and whose serialized status string is "to-do". -/
theorem c8_add_buy_milk (i : Ulid) (n : Nat) :
    runMain ["task-cli", "add", "buy milk"] (ReadResult.err IOErrorKind.notFound) i n
      = Outcome.done [] (Json.arr [Json.obj
          [("id", Json.num i.val), ("description", Json.str "buy milk"),
           ("status", Json.str "to-do"), ("created_at", Json.num n),
           ("updated_at", Json.num n)]]) := rfl

/-- Claim C9: the task matched by mark changes only in its status field: id,
description, created_at, and updated_at are untouched; moreover neither mark
nor update ever refreshes the updated_at column anywhere in the collection. -/
theorem c9_mark_changes_only_status
    (tasks pre post : List Task) (t : Task) (id : Ulid) (st : Status) (d : String)
    (hpre : ∀ u ∈ pre, u.id ≠ id) (ht : t.id = id) :
    markFirst (pre ++ t :: post) id st
      = pre ++ ({ t with status := st } : Task) :: post ∧
    ({ t with status := st } : Task).id = t.id ∧
    ({ t with status := st } : Task).description = t.description ∧
    ({ t with status := st } : Task).created_at = t.created_at ∧
    ({ t with status := st } : Task).updated_at = t.updated_at ∧
    (markFirst tasks id st).map Task.updated_at = tasks.map Task.updated_at ∧
    (updateFirst tasks id d).map Task.updated_at = tasks.map Task.updated_at := by
  refine ⟨?_, rfl, rfl, rfl, rfl, markFirst_map_updated_at tasks id st,
    updateFirst_map_updated_at tasks id d⟩
  rw [markFirst_append_not_mem pre _ id st hpre]
  simp [markFirst, ht]

/-- Claim C9 witness. -/
theorem c9_mark_changes_only_status_witness :
    markFirst ([⟨⟨1⟩, "a", Status.ToDo, 3, 4⟩] ++ ⟨⟨2⟩, "b", Status.ToDo, 5, 6⟩
        :: [⟨⟨3⟩, "c", Status.ToDo, 7, 8⟩]) ⟨2⟩ Status.Done
      = [⟨⟨1⟩, "a", Status.ToDo, 3, 4⟩] ++ ⟨⟨2⟩, "b", Status.Done, 5, 6⟩
        :: [⟨⟨3⟩, "c", Status.ToDo, 7, 8⟩] ∧
    (⟨⟨2⟩, "b", Status.Done, 5, 6⟩ : Task).id = (⟨⟨2⟩, "b", Status.ToDo, 5, 6⟩ : Task).id ∧
    (⟨⟨2⟩, "b", Status.Done, 5, 6⟩ : Task).description
      = (⟨⟨2⟩, "b", Status.ToDo, 5, 6⟩ : Task).description ∧
    (⟨⟨2⟩, "b", Status.Done, 5, 6⟩ : Task).created_at
      = (⟨⟨2⟩, "b", Status.ToDo, 5, 6⟩ : Task).created_at ∧
    (⟨⟨2⟩, "b", Status.Done, 5, 6⟩ : Task).updated_at
      = (⟨⟨2⟩, "b", Status.ToDo, 5, 6⟩ : Task).updated_at ∧
    (markFirst [⟨⟨2⟩, "q", Status.ToDo, 1, 4⟩] ⟨2⟩ Status.Done).map Task.updated_at
      = [(⟨⟨2⟩, "q", Status.ToDo, 1, 4⟩ : Task)].map Task.updated_at ∧
    (updateFirst [⟨⟨2⟩, "q", Status.ToDo, 1, 4⟩] ⟨2⟩ "z").map Task.updated_at
      = [(⟨⟨2⟩, "q", Status.ToDo, 1, 4⟩ : Task)].map Task.updated_at :=
  c9_mark_changes_only_status [⟨⟨2⟩, "q", Status.ToDo, 1, 4⟩]
    [⟨⟨1⟩, "a", Status.ToDo, 3, 4⟩] [⟨⟨3⟩, "c", Status.ToDo, 7, 8⟩]
    ⟨⟨2⟩, "b", Status.ToDo, 5, 6⟩ ⟨2⟩ Status.Done "z" (by decide) rfl

/-- Claim C10: list prints exactly the tasks whose status equals the given
status (all tasks when the argument is omitted), one line per task in
collection order, each line formatted as id, dot, space, description, and
the status keyword in parentheses, where the keyword is the lowercase/kebab
form todo, in-progress, or done. -/
theorem c10_list_output_format
    (p s : String) (fsRead : ReadResult) (i : Ulid) (n : Nat)
    (tasks : List Task) (st : Status) (t : Task)
    (hload : load fsRead = LoadResult.ok tasks)
    (hst : Status.fromStr s = Except.ok st) :
    runMain [p, "list"] fsRead i n = Outcome.done (tasks.map taskLine) (saveDoc tasks) ∧
    runMain [p, "list", s] fsRead i n
      = Outcome.done ((tasks.filter (fun u => u.status == st)).map taskLine)
          (saveDoc tasks) ∧
    taskLine t = t.id.display ++ ". " ++ t.description ++ " ("
        ++ t.status.display ++ ")" ∧
    Status.display Status.ToDo = "todo" ∧
    Status.display Status.InProgress = "in-progress" ∧
    Status.display Status.Done = "done" := by
  refine ⟨?_, ?_, rfl, rfl, rfl, rfl⟩
  · rw [runMain_list_eq, hload]
  · rw [runMain_list_arg_eq, hload]
    simp [hst]

/-- Claim C10 witness: three tasks, one done; list done prints only it. -/
theorem c10_list_output_format_witness :
    runMain ["task-cli", "list"]
        (ReadResult.ok (saveDoc [⟨⟨1⟩, "a", Status.ToDo, 0, 0⟩,
          ⟨⟨2⟩, "b", Status.Done, 0, 0⟩, ⟨⟨3⟩, "c", Status.InProgress, 0, 0⟩])) ⟨9⟩ 7
      = Outcome.done ([⟨⟨1⟩, "a", Status.ToDo, 0, 0⟩, ⟨⟨2⟩, "b", Status.Done, 0, 0⟩,
          ⟨⟨3⟩, "c", Status.InProgress, 0, 0⟩].map taskLine)
          (saveDoc [⟨⟨1⟩, "a", Status.ToDo, 0, 0⟩, ⟨⟨2⟩, "b", Status.Done, 0, 0⟩,
            ⟨⟨3⟩, "c", Status.InProgress, 0, 0⟩]) ∧
    runMain ["task-cli", "list", "done"]
        (ReadResult.ok (saveDoc [⟨⟨1⟩, "a", Status.ToDo, 0, 0⟩,
          ⟨⟨2⟩, "b", Status.Done, 0, 0⟩, ⟨⟨3⟩, "c", Status.InProgress, 0, 0⟩])) ⟨9⟩ 7
      = Outcome.done (([⟨⟨1⟩, "a", Status.ToDo, 0, 0⟩, ⟨⟨2⟩, "b", Status.Done, 0, 0⟩,
          ⟨⟨3⟩, "c", Status.InProgress, 0, 0⟩].filter
            (fun u => u.status == Status.Done)).map taskLine)
          (saveDoc [⟨⟨1⟩, "a", Status.ToDo, 0, 0⟩, ⟨⟨2⟩, "b", Status.Done, 0, 0⟩,
            ⟨⟨3⟩, "c", Status.InProgress, 0, 0⟩]) ∧
    taskLine ⟨⟨2⟩, "b", Status.Done, 0, 0⟩
      = (Ulid.mk 2).display ++ ". " ++ "b" ++ " (" ++ Status.display Status.Done ++ ")" ∧
    Status.display Status.ToDo = "todo" ∧
    Status.display Status.InProgress = "in-progress" ∧
    Status.display Status.Done = "done" :=
  c10_list_output_format "task-cli" "done"
    (ReadResult.ok (saveDoc [⟨⟨1⟩, "a", Status.ToDo, 0, 0⟩,
      ⟨⟨2⟩, "b", Status.Done, 0, 0⟩, ⟨⟨3⟩, "c", Status.InProgress, 0, 0⟩])) ⟨9⟩ 7
    [⟨⟨1⟩, "a", Status.ToDo, 0, 0⟩, ⟨⟨2⟩, "b", Status.Done, 0, 0⟩,
      ⟨⟨3⟩, "c", Status.InProgress, 0, 0⟩] Status.Done
    ⟨⟨2⟩, "b", Status.Done, 0, 0⟩ rfl rfl

end TaskTracker
